import Mathlib

/-!
Shallow embedding of the parametric box/lid solid-synthesis pipeline
(`src/lib/cad.ts`, parameter model in `src/lib/params.ts`).

Numeric model: the source works with JavaScript numbers; the embedding uses
exact rationals (`ℚ`).  The only irrational quantity in the pipeline is the
arc-midpoint offset `diag = r / sqrt 2`; arc-midpoint coordinates are
therefore represented exactly as pairs `(a, b)` meaning `a + b * sqrt 2`.

Solids are modelled as the constructor tree the pipeline hands to the
geometry kernel (extruded profiles, kernel box/cylinder primitives, boolean
cut, rigid translation, compound); the kernel itself is out of scope.
-/

/-- Shape kind.  `params.ts` only ever produces `"box"`, but `cad.ts`
branches on `"cylinder"` as well, so the model carries both. -/
inductive ShapeType
  | box
  | cylinder
deriving DecidableEq

/-- Thickness-resolution mode (`"uniform" | "custom"`). -/
inductive ThicknessMode
  | uniform
  | custom
deriving DecidableEq

/-- `ShapeParams` from `src/lib/params.ts`. -/
structure ShapeParams where
  shape : ShapeType
  includeLid : Bool
  insideWidth : ℚ
  insideDepth : ℚ
  insideHeight : ℚ
  includeInsideRadius : Bool
  insideRadius : ℚ
  thicknessMode : ThicknessMode
  thickness : ℚ
  wallThickness : ℚ
  topThickness : ℚ
  bottomThickness : ℚ
  clearance : ℚ

/-- The `{wall, top, bottom}` triple returned by `resolveThickness`. -/
structure ResolvedThickness where
  wall : ℚ
  top : ℚ
  bottom : ℚ

/-- `resolveThickness` (cad.ts lines 1011-1024). -/
def resolveThickness (params : ShapeParams) : ResolvedThickness :=
  if params.thicknessMode = ThicknessMode.uniform then
    { wall := params.thickness, top := params.thickness, bottom := params.thickness }
  else
    { wall := params.wallThickness, top := params.topThickness,
      bottom := params.bottomThickness }

/-- `clampRadius` (cad.ts lines 1026-1029):
`limit = max(0, maxRadius - 0.01); return min(radius, limit)`. -/
def clampRadius (radius maxRadius : ℚ) : ℚ :=
  let limit := max 0 (maxRadius - 1 / 100)
  min radius limit

/-- A rational 3-D point (`gp_Pnt` with rational coordinates). -/
structure Pt where
  x : ℚ
  y : ℚ
  z : ℚ
deriving DecidableEq

/-- An arc midpoint whose planar coordinates live in `ℚ + ℚ·√2`:
the stored `(xa, xb)` means the x-coordinate `xa + xb * sqrt 2`
(the source computes `diag = r / Math.sqrt(2) = (r/2) * sqrt 2`). -/
structure ArcMid where
  xa : ℚ
  xb : ℚ
  ya : ℚ
  yb : ℚ
  z : ℚ
deriving DecidableEq

/-- A profile edge: a straight segment between two points, or a
three-point arc (start, on-arc midpoint, end) as in `makeEdgeArc`. -/
inductive Edge
  | line (p1 p2 : Pt)
  | arc (p1 : Pt) (pmid : ArcMid) (p2 : Pt)
deriving DecidableEq

/-- The eight-edge rounded-rectangle profile built in
`buildRoundedRectPrism` (cad.ts lines 1051-1080): clockwise from the
bottom-left straight run, alternating line / corner arc. -/
def roundedRectEdges (x y z width depth r : ℚ) : List Edge :=
  let x0 := x
  let x1 := x + width
  let y0 := y
  let y1 := y + depth
  let p1 : Pt := ⟨x0 + r, y0, z⟩
  let p2 : Pt := ⟨x1 - r, y0, z⟩
  let p3 : Pt := ⟨x1, y0 + r, z⟩
  let p4 : Pt := ⟨x1, y1 - r, z⟩
  let p5 : Pt := ⟨x1 - r, y1, z⟩
  let p6 : Pt := ⟨x0 + r, y1, z⟩
  let p7 : Pt := ⟨x0, y1 - r, z⟩
  let p8 : Pt := ⟨x0, y0 + r, z⟩
  let midTR : ArcMid := ⟨x1 - r, r / 2, y0 + r, -(r / 2), z⟩
  let midBR : ArcMid := ⟨x1 - r, r / 2, y1 - r, r / 2, z⟩
  let midBL : ArcMid := ⟨x0 + r, -(r / 2), y1 - r, r / 2, z⟩
  let midTL : ArcMid := ⟨x0 + r, -(r / 2), y0 + r, -(r / 2), z⟩
  [Edge.line p1 p2, Edge.arc p2 midTR p3,
   Edge.line p3 p4, Edge.arc p4 midBR p5,
   Edge.line p5 p6, Edge.arc p6 midBL p7,
   Edge.line p7 p8, Edge.arc p8 midTL p1]

/-- Footprint boundary of the kernel box primitive `makeBoxAt`: a plain
axis-aligned rectangle of four line edges (the degenerate-profile result
the spec describes). -/
def rectEdges (x y z width depth : ℚ) : List Edge :=
  let p1 : Pt := ⟨x, y, z⟩
  let p2 : Pt := ⟨x + width, y, z⟩
  let p3 : Pt := ⟨x + width, y + depth, z⟩
  let p4 : Pt := ⟨x, y + depth, z⟩
  [Edge.line p1 p2, Edge.line p2 p3, Edge.line p3 p4, Edge.line p4 p1]

/-- Solids as the constructor tree the pipeline builds and passes to the
geometry kernel.  `rrect` is the non-degenerate result of
`buildRoundedRectPrism` (extruded eight-edge profile, storing the clamped
radius actually used); `boxAt` is the `makeBoxAt` fallback; `cyl` is
`makeCylinder`. -/
inductive Solid
  | rrect (x y z width depth height radius : ℚ)
  | boxAt (x y z width depth height : ℚ)
  | cyl (radius height : ℚ)
  | cut (outer inner : Solid)
  | translate (s : Solid) (dx dy dz : ℚ)
  | compound (solids : List Solid)

/-- `cutShape` (cad.ts lines 896-898): boolean cut, outer minus inner. -/
def cutShape (outer inner : Solid) : Solid := Solid.cut outer inner

/-- `translateShape` (cad.ts lines 805-847): rigid translation. -/
def translateShape (s : Solid) (x y z : ℚ) : Solid := Solid.translate s x y z

/-- `makeCompound` (cad.ts lines 900-911). -/
def makeCompound (shapes : List Solid) : Solid := Solid.compound shapes

/-- `makeCylinderAt` (cad.ts lines 679-692): a cylinder at the origin,
translated only when the offset is nonzero. -/
def makeCylinderAt (radius height x y z : ℚ) : Solid :=
  if x = 0 ∧ y = 0 ∧ z = 0 then Solid.cyl radius height
  else Solid.translate (Solid.cyl radius height) x y z

/-- `buildRoundedRectPrism` (cad.ts lines 1031-1089): clamp the radius,
fall back to the kernel box when the clamped radius or either straight
span is nonpositive, otherwise extrude the eight-edge rounded profile. -/
def buildRoundedRectPrism (x y z width depth height radius : ℚ) : Solid :=
  let maxRadius := min width depth / 2
  let r := clampRadius radius maxRadius
  if r ≤ 0 then Solid.boxAt x y z width depth height
  else
    let coreWidth := width - r * 2
    let coreDepth := depth - r * 2
    if coreWidth ≤ 0 ∨ coreDepth ≤ 0 then Solid.boxAt x y z width depth height
    else Solid.rrect x y z width depth height r

/-- `buildBox` (cad.ts lines 1091-1124).  Note the source fixes
`topThickness = 0` unconditionally for the rectangular box. -/
def buildBox (params : ShapeParams) : Solid :=
  let rt := resolveThickness params
  let wall := rt.wall
  let bottom := rt.bottom
  let topThickness : ℚ := 0
  let outerWidth := params.insideWidth + wall * 2
  let outerDepth := params.insideDepth + wall * 2
  let outerHeight := params.insideHeight + bottom + topThickness
  let innerRadius := if params.includeInsideRadius then params.insideRadius else 0
  let inner := buildRoundedRectPrism wall wall bottom
    params.insideWidth params.insideDepth params.insideHeight innerRadius
  let outerRadius := if params.includeInsideRadius then params.insideRadius + wall else 0
  let outerShell := buildRoundedRectPrism 0 0 0
    outerWidth outerDepth outerHeight outerRadius
  cutShape outerShell inner

/-- `buildCylinder` (cad.ts lines 1126-1138). -/
def buildCylinder (params : ShapeParams) : Solid :=
  let rt := resolveThickness params
  let wall := rt.wall
  let bottom := rt.bottom
  let topThickness := if params.includeLid then 0 else rt.top
  let innerRadius := params.insideWidth / 2
  let outerRadius := innerRadius + wall
  let outerHeight := params.insideHeight + bottom + topThickness
  let inner := makeCylinderAt innerRadius params.insideHeight 0 0 bottom
  let outer := makeCylinderAt outerRadius outerHeight 0 0 0
  cutShape outer inner

/-- `buildRoundedInnerTool` (cad.ts lines 1140-1155). -/
def buildRoundedInnerTool (params : ShapeParams) : Option Solid :=
  let rt := resolveThickness params
  if params.includeInsideRadius = false then none
  else some (buildRoundedRectPrism rt.wall rt.wall rt.bottom
    params.insideWidth params.insideDepth params.insideHeight params.insideRadius)

/-- `buildLid` (cad.ts lines 1157-1207). -/
def buildLid (params : ShapeParams) (baseOuterWidth baseOuterDepth : ℚ) : Solid :=
  let rt := resolveThickness params
  let wall := rt.wall
  let top := rt.top
  let bottom := rt.bottom
  let clearance := params.clearance
  let innerWidth := baseOuterWidth + clearance * 2
  let innerDepth := baseOuterDepth + clearance * 2
  let lidHeight := params.insideHeight + bottom + top
  let outerWidth := innerWidth + wall * 2
  let outerDepth := innerDepth + wall * 2
  if params.shape = ShapeType.cylinder then
    let innerRadius := innerWidth / 2
    let outerRadius := innerRadius + wall
    let outer := makeCylinderAt outerRadius lidHeight 0 0 0
    let inner := makeCylinderAt innerRadius (lidHeight - top) 0 0 0
    let lid := cutShape outer inner
    translateShape lid (-(clearance + wall)) (-(clearance + wall)) 0
  else
    let baseOuterRadius :=
      if params.includeInsideRadius then params.insideRadius + wall else 0
    let innerRadius := baseOuterRadius + clearance
    let outerRadius := innerRadius + wall
    let outer := buildRoundedRectPrism 0 0 0 outerWidth outerDepth lidHeight outerRadius
    let inner := buildRoundedRectPrism wall wall 0
      innerWidth innerDepth (lidHeight - top) innerRadius
    let lid := cutShape outer inner
    translateShape lid (-(clearance + wall)) (-(clearance + wall)) 0

/-- The exported STEP byte buffer, modelled by the solid it serializes
(`writeStep` drives the kernel's writer; its binary layout is out of
scope). -/
inductive StepData
  | render (shape : Solid)

/-- `writeStep` (cad.ts lines 913-1009), modelled as serialization of the
given solid. -/
def writeStep (shape : Solid) : StepData := StepData.render shape

/-- `buildStepFile` (cad.ts lines 1209-1229). -/
def buildStepFile (params : ShapeParams) : StepData :=
  let base :=
    if params.shape = ShapeType.cylinder then buildCylinder params
    else buildBox params
  if params.includeLid = false then writeStep base
  else
    let wall := (resolveThickness params).wall
    let baseOuterWidth := params.insideWidth + wall * 2
    let baseOuterDepth :=
      if params.shape = ShapeType.cylinder then baseOuterWidth
      else params.insideDepth + wall * 2
    let lid := buildLid params baseOuterWidth baseOuterDepth
    writeStep (makeCompound [base, lid])

/-- `buildDebugInnerTool` (cad.ts lines 1231-1241). -/
def buildDebugInnerTool (params : ShapeParams) : Option StepData :=
  if params.shape ≠ ShapeType.box ∨ params.includeInsideRadius = false then none
  else
    match buildRoundedInnerTool params with
    | none => none
    | some tool => some (writeStep tool)

/-- One entry of the ambient diagnostic trace `window.__cadDebug`
(`{label, payload, time}`); the payload is abstracted to an optional
number, the ISO timestamp to a number. -/
structure DebugEntry where
  label : String
  payload : Option ℚ
  time : ℕ
deriving DecidableEq

/-- `debugLog`'s trace update (cad.ts lines 113-134): a plain
`push` onto the ambient array — the new entry is appended at the end. -/
def debugPush (trace : List DebugEntry) (entry : DebugEntry) : List DebugEntry :=
  trace ++ [entry]

/-- The failure report extracted from the trace by the error handler in
`App.tsx` (line 123): `__cadDebug.slice(-40)`, i.e. the last (up to) 40
entries. -/
def debugReport (trace : List DebugEntry) : List DebugEntry :=
  trace.drop (trace.length - 40)

/- ### Observers (spec-side, structural) -/

/-- Extrusion height of a primitive solid (profile prisms, kernel box,
cylinder); composites are not extrusions and report 0. -/
def heightOf : Solid → ℚ
  | Solid.rrect _ _ _ _ _ h _ => h
  | Solid.boxAt _ _ _ _ _ h => h
  | Solid.cyl _ h => h
  | _ => 0

/-- Base z-coordinate of a primitive solid. -/
def zBaseOf : Solid → ℚ
  | Solid.rrect _ _ z _ _ _ _ => z
  | Solid.boxAt _ _ z _ _ _ => z
  | Solid.cyl _ _ => 0
  | _ => 0

/-- Planar footprint width of a primitive solid. -/
def footprintW : Solid → ℚ
  | Solid.rrect _ _ _ w _ _ _ => w
  | Solid.boxAt _ _ _ w _ _ => w
  | Solid.cyl r _ => 2 * r
  | _ => 0

/-- Planar footprint depth of a primitive solid. -/
def footprintD : Solid → ℚ
  | Solid.rrect _ _ _ _ d _ _ => d
  | Solid.boxAt _ _ _ _ d _ => d
  | Solid.cyl r _ => 2 * r
  | _ => 0

/-- The effective (clamped) corner radius a profile prism was built
with; the box fallback and other solids carry no rounded corner. -/
def radiusUsed : Solid → ℚ
  | Solid.rrect _ _ _ _ _ _ r => r
  | _ => 0

/-- The profile boundary of an extruded solid (empty for composites). -/
def profileEdges : Solid → List Edge
  | Solid.rrect x y z w d _ r => roundedRectEdges x y z w d r
  | Solid.boxAt x y z w d _ => rectEdges x y z w d
  | _ => []

/-- Whether an edge is an arc. -/
def Edge.isArc : Edge → Bool
  | Edge.line _ _ => false
  | Edge.arc _ _ _ => true

/-- Start point of an edge (arc endpoints are the rational corner
points; the irrational midpoint is interior). -/
def Edge.startPt : Edge → Pt
  | Edge.line p _ => p
  | Edge.arc p _ _ => p

/-- End point of an edge. -/
def Edge.endPt : Edge → Pt
  | Edge.line _ q => q
  | Edge.arc _ _ q => q

/-- Squared Euclidean distance between two rational points. -/
def sqDist (p q : Pt) : ℚ :=
  (q.x - p.x) ^ 2 + (q.y - p.y) ^ 2 + (q.z - p.z) ^ 2

/-- Squared lengths of the straight (line) edges of a profile, in
traversal order. -/
def straightSqLens (es : List Edge) : List ℚ :=
  es.filterMap fun e =>
    match e with
    | Edge.line p q => some (sqDist p q)
    | Edge.arc _ _ _ => none

/-- Consecutive edges connect end-to-start. -/
def consecOk : List Edge → Prop
  | e1 :: e2 :: rest => e1.endPt = e2.startPt ∧ consecOk (e2 :: rest)
  | _ => True

/-- The edge list forms a closed chain: consecutive edges connect and
the last edge returns to the first edge's start. -/
def chainClosed (es : List Edge) : Prop :=
  consecOk es ∧
    match es.head?, es.getLast? with
    | some first, some last => last.endPt = first.startPt
    | _, _ => True

/-- The outer solid (minuend) of a boolean cut. -/
def cutOuter : Solid → Option Solid
  | Solid.cut outer _ => some outer
  | _ => none

/-- The inner solid (subtrahend) of a boolean cut. -/
def cutInner : Solid → Option Solid
  | Solid.cut _ inner => some inner
  | _ => none

/-- The solid a STEP buffer serializes. -/
def exportedSolid : StepData → Solid
  | StepData.render s => s

/-- The lid body of an exported two-body compound `[base, lid]`. -/
def lidOfExport : StepData → Option Solid
  | StepData.render (Solid.compound [_, lid]) => some lid
  | _ => none

/-- The inner (cavity-tool) solid of a built lid
`translate (cut outer inner) …`. -/
def lidInnerTool : Solid → Option Solid
  | Solid.translate (Solid.cut _ inner) _ _ _ => some inner
  | _ => none

/- ### Helper lemmas -/

/-- Whatever branch `buildRoundedRectPrism` takes, the produced solid has
the requested extrusion height. -/
theorem heightOf_buildRoundedRectPrism (x y z w d h r : ℚ) :
    heightOf (buildRoundedRectPrism x y z w d h r) = h := by
  simp only [buildRoundedRectPrism]
  split
  · rfl
  · split <;> rfl

/-- Whatever branch `buildRoundedRectPrism` takes, the produced solid has
the requested base z. -/
theorem zBaseOf_buildRoundedRectPrism (x y z w d h r : ℚ) :
    zBaseOf (buildRoundedRectPrism x y z w d h r) = z := by
  simp only [buildRoundedRectPrism]
  split
  · rfl
  · split <;> rfl

/-- Whatever branch `buildRoundedRectPrism` takes, the produced solid has
the requested footprint width. -/
theorem footprintW_buildRoundedRectPrism (x y z w d h r : ℚ) :
    footprintW (buildRoundedRectPrism x y z w d h r) = w := by
  simp only [buildRoundedRectPrism]
  split
  · rfl
  · split <;> rfl

/-- Whatever branch `buildRoundedRectPrism` takes, the produced solid has
the requested footprint depth. -/
theorem footprintD_buildRoundedRectPrism (x y z w d h r : ℚ) :
    footprintD (buildRoundedRectPrism x y z w d h r) = d := by
  simp only [buildRoundedRectPrism]
  split
  · rfl
  · split <;> rfl

/-- A requested radius that is positive and at least `0.01` below the
half-span limit passes `clampRadius` unchanged. -/
theorem clampRadius_eq_self {r m : ℚ} (h0 : 0 < r) (h1 : r ≤ m - 1 / 100) :
    clampRadius r m = r := by
  unfold clampRadius
  rw [max_eq_right (by linarith), min_eq_left h1]

/-- A requested radius at or above the half-span limit clamps to
`limit = m - 0.01` whenever that limit is nonnegative. -/
theorem clampRadius_eq_limit {r m : ℚ} (h0 : 0 ≤ m - 1 / 100) (h1 : m - 1 / 100 ≤ r) :
    clampRadius r m = m - 1 / 100 := by
  unfold clampRadius
  rw [max_eq_right h0, min_eq_right h1]

/-- Under an unclamped positive radius, the profile builder takes the
rounded (eight-edge) branch. -/
theorem buildRoundedRectPrism_rounded (x y z w d h r : ℚ)
    (h0 : 0 < r) (h1 : r ≤ min w d / 2 - 1 / 100) :
    buildRoundedRectPrism x y z w d h r = Solid.rrect x y z w d h r := by
  have hclamp : clampRadius r (min w d / 2) = r := clampRadius_eq_self h0 h1
  have hw : min w d ≤ w := min_le_left w d
  have hd : min w d ≤ d := min_le_right w d
  simp only [buildRoundedRectPrism]
  rw [hclamp, if_neg (not_le.mpr h0), if_neg]
  push_neg
  constructor <;> linarith

/-- Sample parameters used by witnesses: the interactive defaults
(`defaultParams` in params.ts). -/
def demoParams : ShapeParams :=
  { shape := ShapeType.box, includeLid := true,
    insideWidth := 10, insideDepth := 10, insideHeight := 10,
    includeInsideRadius := true, insideRadius := 5 / 2,
    thicknessMode := ThicknessMode.uniform,
    thickness := 167 / 100, wallThickness := 167 / 100,
    topThickness := 167 / 100, bottomThickness := 167 / 100,
    clearance := 1 / 5 }

/-- The same parameters with the lid disabled. -/
def demoNoLid : ShapeParams :=
  { demoParams with includeLid := false }

/- ### Claim theorems -/

/-- C4.  For every requested corner radius and planar dimensions, the
effective radius computed inside `buildRoundedRectPrism` (via
`clampRadius` applied to `min(width, depth)/2`) is
`min(radius, max(0, min(width, depth)/2 - 0.01))`; the builder always
produces a solid at the requested placement (an oversized radius is
silently clamped, never rejected); and the degenerate sample
width = depth = 10, radius = 20 clamps to exactly 4.99 and still builds
the rounded profile. -/
theorem effective_radius_clamp_formula :
    (∀ width depth radius : ℚ,
      clampRadius radius (min width depth / 2)
        = min radius (max 0 (min width depth / 2 - 1 / 100))) ∧
    (∀ x y z w d h r : ℚ,
      buildRoundedRectPrism x y z w d h r = Solid.boxAt x y z w d h ∨
      buildRoundedRectPrism x y z w d h r
        = Solid.rrect x y z w d h (clampRadius r (min w d / 2))) ∧
    clampRadius 20 (min 10 10 / 2) = 499 / 100 ∧
    buildRoundedRectPrism 0 0 0 10 10 10 20
      = Solid.rrect 0 0 0 10 10 10 (499 / 100) := by
  refine ⟨fun width depth radius => rfl, fun x y z w d h r => ?_, ?_, ?_⟩
  · simp only [buildRoundedRectPrism]
    split
    · exact Or.inl rfl
    · split
      · exact Or.inl rfl
      · exact Or.inr rfl
  · norm_num [clampRadius]
  · norm_num [buildRoundedRectPrism, clampRadius]

/-- C2, counterexample.  With the interactive default parameters minus
the lid (`includeLid = false`, uniform thickness 1.67, inside height 10),
the rectangular-box outer solid is extruded to height 11.67 =
insideHeight + bottom, not insideHeight + bottom + top = 13.34:
`buildBox` fixes its `topThickness` to 0 unconditionally. -/
theorem box_outer_height_counterexample :
    demoNoLid.includeLid = false ∧ demoNoLid.shape = ShapeType.box ∧
    (cutOuter (buildBox demoNoLid)).map heightOf = some (1167 / 100) ∧
    (1167 / 100 : ℚ) ≠ demoNoLid.insideHeight + (resolveThickness demoNoLid).bottom
      + (resolveThickness demoNoLid).top := by
  refine ⟨rfl, rfl, ?_, ?_⟩
  · simp only [buildBox, cutShape, cutOuter, Option.map_some',
      heightOf_buildRoundedRectPrism]
    norm_num [demoNoLid, demoParams, resolveThickness]
  · norm_num [demoNoLid, demoParams, resolveThickness]

/-- C2, amended.  For every parameter set, the rectangular-box outer
solid is extruded to exactly insideHeight + bottom: `buildBox` never adds
the top thickness, whether or not a lid is included. -/
theorem box_outer_height_no_top (p : ShapeParams) :
    (cutOuter (buildBox p)).map heightOf
      = some (p.insideHeight + (resolveThickness p).bottom) := by
  simp only [buildBox, cutShape, cutOuter, Option.map_some',
    heightOf_buildRoundedRectPrism]
  norm_num

/-- C3.  For a rectangular box with `includeLid = false`, the export
serializes the base shell alone (one body, a single boolean cut), and
its outer solid's extrusion height is insideHeight + bottom with no top
thickness added. -/
theorem no_lid_single_body_height (p : ShapeParams)
    (hs : p.shape = ShapeType.box) (hl : p.includeLid = false) :
    ∃ outer inner, buildStepFile p = StepData.render (Solid.cut outer inner) ∧
      heightOf outer = p.insideHeight + (resolveThickness p).bottom := by
  refine ⟨buildRoundedRectPrism 0 0 0
      (p.insideWidth + (resolveThickness p).wall * 2)
      (p.insideDepth + (resolveThickness p).wall * 2)
      (p.insideHeight + (resolveThickness p).bottom + 0)
      (if p.includeInsideRadius then p.insideRadius + (resolveThickness p).wall else 0),
    buildRoundedRectPrism (resolveThickness p).wall (resolveThickness p).wall
      (resolveThickness p).bottom p.insideWidth p.insideDepth p.insideHeight
      (if p.includeInsideRadius then p.insideRadius else 0), ?_, ?_⟩
  · simp [buildStepFile, hs, hl, writeStep, buildBox, cutShape]
  · rw [heightOf_buildRoundedRectPrism]
    ring

/-- Witness for C3 at the default parameters with the lid disabled. -/
theorem no_lid_single_body_height_witness :
    demoNoLid.shape = ShapeType.box ∧ demoNoLid.includeLid = false ∧
    ∃ outer inner, buildStepFile demoNoLid = StepData.render (Solid.cut outer inner) ∧
      heightOf outer = demoNoLid.insideHeight + (resolveThickness demoNoLid).bottom :=
  ⟨rfl, rfl, no_lid_single_body_height demoNoLid rfl rfl⟩

/-- C1.  For every rectangular-box build with a lid and clearance ≥ 0,
the inner cavity solid of the exported lid has footprint
(insideWidth + 2·wall) + 2·clearance by (insideDepth + 2·wall) +
2·clearance: the base's outer footprint expanded by 2·clearance in each
planar axis (clearance = 0 gives the flush fit). -/
theorem lid_inner_footprint (p : ShapeParams) (hs : p.shape = ShapeType.box)
    (hl : p.includeLid = true) (hc : 0 ≤ p.clearance) :
    ((lidOfExport (buildStepFile p)).bind lidInnerTool).map footprintW
      = some (p.insideWidth + 2 * (resolveThickness p).wall + 2 * p.clearance) ∧
    ((lidOfExport (buildStepFile p)).bind lidInnerTool).map footprintD
      = some (p.insideDepth + 2 * (resolveThickness p).wall + 2 * p.clearance) := by
  have hb : buildStepFile p
      = StepData.render (Solid.compound [buildBox p,
          buildLid p (p.insideWidth + (resolveThickness p).wall * 2)
            (p.insideDepth + (resolveThickness p).wall * 2)]) := by
    simp [buildStepFile, hs, hl, writeStep, makeCompound]
  rw [hb]
  simp only [lidOfExport, Option.bind_some, Option.some_bind]
  simp only [buildLid, hs]
  simp only [translateShape, cutShape]
  simp [lidInnerTool, footprintW_buildRoundedRectPrism,
    footprintD_buildRoundedRectPrism]
  constructor <;> ring

/-- Witness for C1 at the interactive default parameters
(clearance 0.2, uniform thickness 1.67). -/
theorem lid_inner_footprint_witness :
    demoParams.shape = ShapeType.box ∧ demoParams.includeLid = true ∧
    (0 : ℚ) ≤ demoParams.clearance ∧
    (((lidOfExport (buildStepFile demoParams)).bind lidInnerTool).map footprintW
      = some (demoParams.insideWidth + 2 * (resolveThickness demoParams).wall
          + 2 * demoParams.clearance) ∧
    ((lidOfExport (buildStepFile demoParams)).bind lidInnerTool).map footprintD
      = some (demoParams.insideDepth + 2 * (resolveThickness demoParams).wall
          + 2 * demoParams.clearance)) :=
  ⟨rfl, rfl, by norm_num [demoParams],
    lid_inner_footprint demoParams rfl rfl (by norm_num [demoParams])⟩

/-- C7.  Every lid build (rectangular or cylindrical) yields a boolean
cut translated by exactly (−(clearance + wall), −(clearance + wall), 0),
and its outer solid is extruded from z = 0 to height
insideHeight + bottom + top (the cut subtracts material only, and the
translation's z-component is 0, so this is the lid's vertical extent). -/
theorem lid_translation_and_height (p : ShapeParams) (bw bd : ℚ) :
    ∃ outer inner,
      buildLid p bw bd
        = Solid.translate (Solid.cut outer inner)
            (-(p.clearance + (resolveThickness p).wall))
            (-(p.clearance + (resolveThickness p).wall)) 0 ∧
      heightOf outer
        = p.insideHeight + (resolveThickness p).bottom + (resolveThickness p).top ∧
      zBaseOf outer = 0 := by
  by_cases hcyl : p.shape = ShapeType.cylinder
  · refine ⟨Solid.cyl ((bw + p.clearance * 2) / 2 + (resolveThickness p).wall)
        (p.insideHeight + (resolveThickness p).bottom + (resolveThickness p).top),
      Solid.cyl ((bw + p.clearance * 2) / 2)
        (p.insideHeight + (resolveThickness p).bottom + (resolveThickness p).top
          - (resolveThickness p).top), ?_, rfl, rfl⟩
    simp [buildLid, hcyl, makeCylinderAt, cutShape, translateShape]
  · refine ⟨buildRoundedRectPrism 0 0 0
        (bw + p.clearance * 2 + (resolveThickness p).wall * 2)
        (bd + p.clearance * 2 + (resolveThickness p).wall * 2)
        (p.insideHeight + (resolveThickness p).bottom + (resolveThickness p).top)
        ((if p.includeInsideRadius then p.insideRadius + (resolveThickness p).wall
            else 0) + p.clearance + (resolveThickness p).wall),
      buildRoundedRectPrism (resolveThickness p).wall (resolveThickness p).wall 0
        (bw + p.clearance * 2) (bd + p.clearance * 2)
        (p.insideHeight + (resolveThickness p).bottom + (resolveThickness p).top
          - (resolveThickness p).top)
        ((if p.includeInsideRadius then p.insideRadius + (resolveThickness p).wall
            else 0) + p.clearance), ?_, ?_, ?_⟩
    · simp [buildLid, hcyl, cutShape, translateShape]
    · rw [heightOf_buildRoundedRectPrism]
    · rw [zBaseOf_buildRoundedRectPrism]

/-- C8.  `buildDebugInnerTool` returns none whenever the shape is not
the rectangular box or rounded inside corners are disabled; otherwise it
exports exactly the rounded inner-cavity tool solid (the inset prism at
(wall, wall, bottom) with the inside dimensions and requested inside
radius) on its own. -/
theorem debug_inner_tool_gating (p : ShapeParams) :
    (p.shape ≠ ShapeType.box ∨ p.includeInsideRadius = false →
      buildDebugInnerTool p = none) ∧
    (p.shape = ShapeType.box → p.includeInsideRadius = true →
      buildDebugInnerTool p
        = some (writeStep (buildRoundedRectPrism (resolveThickness p).wall
            (resolveThickness p).wall (resolveThickness p).bottom
            p.insideWidth p.insideDepth p.insideHeight p.insideRadius))) := by
  constructor
  · intro h
    simp only [buildDebugInnerTool]
    rw [if_pos h]
  · intro hs hr
    simp [buildDebugInnerTool, buildRoundedInnerTool, hs, hr, writeStep]

/-- The default parameters with the cylindrical shape selected. -/
def demoCylParams : ShapeParams :=
  { demoParams with shape := ShapeType.cylinder }

/-- Witness for C8: the cylinder variant yields none; the default box
parameters yield the exported cavity tool. -/
theorem debug_inner_tool_gating_witness :
    (demoCylParams.shape ≠ ShapeType.box ∨ demoCylParams.includeInsideRadius = false) ∧
    buildDebugInnerTool demoCylParams = none ∧
    demoParams.shape = ShapeType.box ∧ demoParams.includeInsideRadius = true ∧
    buildDebugInnerTool demoParams
      = some (writeStep (buildRoundedRectPrism (resolveThickness demoParams).wall
          (resolveThickness demoParams).wall (resolveThickness demoParams).bottom
          demoParams.insideWidth demoParams.insideDepth demoParams.insideHeight
          demoParams.insideRadius)) :=
  ⟨Or.inl (by decide), (debug_inner_tool_gating demoCylParams).1 (Or.inl (by decide)),
    rfl, rfl, (debug_inner_tool_gating demoParams).2 rfl rfl⟩

/-- C5, counterexample.  At width = depth = 10 and requested radius
4.995 (< min(width,depth)/2 = 5), the clamp replaces the radius by 4.99,
so the straight-edge length is 0.02 — its square 1/2500 differs from
(width − 2·radius)² = (0.01)² = 1/10000: the claimed exact lengths fail
for radii inside the clamp band, refuting the claim as stated. -/
theorem profile_exact_counterexample :
    (999 / 200 : ℚ) < min 10 10 / 2 ∧
    buildRoundedRectPrism 0 0 0 10 10 10 (999 / 200)
      = Solid.rrect 0 0 0 10 10 10 (499 / 100) ∧
    straightSqLens (profileEdges (buildRoundedRectPrism 0 0 0 10 10 10 (999 / 200)))
      = [1 / 2500, 1 / 2500, 1 / 2500, 1 / 2500] ∧
    (1 / 2500 : ℚ) ≠ (10 - 2 * (999 / 200)) ^ 2 := by
  have hb : buildRoundedRectPrism 0 0 0 10 10 10 (999 / 200)
      = Solid.rrect 0 0 0 10 10 10 (499 / 100) := by
    norm_num [buildRoundedRectPrism, clampRadius]
  refine ⟨by norm_num, hb, ?_, by norm_num⟩
  rw [hb]
  norm_num [profileEdges, roundedRectEdges, straightSqLens, sqDist,
    List.filterMap_cons, List.filterMap_nil]

/-- C5, amended.  For every width, depth and radius with 0 < radius ≤
min(width, depth)/2 − 0.01 (i.e. a positive radius the clamp leaves
unchanged), the profile builder emits a closed wire of exactly eight
edges alternating line/arc, whose straight edges have squared lengths
exactly (width − 2·radius)² and (depth − 2·radius)² (edges are
axis-aligned, so squared length determines the nonnegative length
width − 2·radius resp. depth − 2·radius exactly). -/
theorem profile_exact_below_clamp (x y z w d h r : ℚ)
    (h0 : 0 < r) (h1 : r ≤ min w d / 2 - 1 / 100) :
    buildRoundedRectPrism x y z w d h r = Solid.rrect x y z w d h r ∧
    (profileEdges (buildRoundedRectPrism x y z w d h r)).length = 8 ∧
    (profileEdges (buildRoundedRectPrism x y z w d h r)).map Edge.isArc
      = [false, true, false, true, false, true, false, true] ∧
    chainClosed (profileEdges (buildRoundedRectPrism x y z w d h r)) ∧
    straightSqLens (profileEdges (buildRoundedRectPrism x y z w d h r))
      = [(w - 2 * r) ^ 2, (d - 2 * r) ^ 2, (w - 2 * r) ^ 2, (d - 2 * r) ^ 2] := by
  have hb := buildRoundedRectPrism_rounded x y z w d h r h0 h1
  refine ⟨hb, ?_, ?_, ?_, ?_⟩ <;> rw [hb]
  · rfl
  · rfl
  · simp [profileEdges, roundedRectEdges, chainClosed, consecOk,
      Edge.endPt, Edge.startPt]
  · simp only [profileEdges, roundedRectEdges, straightSqLens,
      List.filterMap_cons, List.filterMap_nil, sqDist]
    norm_num
    refine ⟨by ring, by ring, by ring, by ring⟩

/-- Witness for the amended C5 at width = depth = 10, radius 2.5. -/
theorem profile_exact_below_clamp_witness :
    (0 : ℚ) < 5 / 2 ∧ (5 / 2 : ℚ) ≤ min 10 10 / 2 - 1 / 100 ∧
    (profileEdges (buildRoundedRectPrism 0 0 0 10 10 10 (5 / 2))).length = 8 ∧
    straightSqLens (profileEdges (buildRoundedRectPrism 0 0 0 10 10 10 (5 / 2)))
      = [(10 - 2 * (5 / 2 : ℚ)) ^ 2, (10 - 2 * (5 / 2 : ℚ)) ^ 2,
         (10 - 2 * (5 / 2 : ℚ)) ^ 2, (10 - 2 * (5 / 2 : ℚ)) ^ 2] :=
  ⟨by norm_num, by norm_num,
    (profile_exact_below_clamp 0 0 0 10 10 10 (5 / 2)
      (by norm_num) (by norm_num)).2.1,
    (profile_exact_below_clamp 0 0 0 10 10 10 (5 / 2)
      (by norm_num) (by norm_num)).2.2.2.2⟩

/-- C6, counterexample.  At width = depth = 10 and radius 5 =
min(width,depth)/2, the builder does not degrade to a 4-edge rectangle:
it clamps the radius to 4.99 and still emits the eight-edge rounded
profile containing arcs, refuting the claim as stated. -/
theorem profile_oversize_counterexample :
    min 10 10 / 2 ≤ (5 : ℚ) ∧
    buildRoundedRectPrism 0 0 0 10 10 10 5
      = Solid.rrect 0 0 0 10 10 10 (499 / 100) ∧
    (profileEdges (buildRoundedRectPrism 0 0 0 10 10 10 5)).length = 8 ∧
    (profileEdges (buildRoundedRectPrism 0 0 0 10 10 10 5)).any Edge.isArc = true := by
  have hb : buildRoundedRectPrism 0 0 0 10 10 10 5
      = Solid.rrect 0 0 0 10 10 10 (499 / 100) := by
    norm_num [buildRoundedRectPrism, clampRadius]
  refine ⟨by norm_num, hb, ?_, ?_⟩ <;> rw [hb] <;> rfl

/-- C6, amended.  For radius ≥ min(width, depth)/2 with
min(width, depth) > 0.02, the profile builder does not square the
corners: it emits the eight-edge rounded profile with the radius clamped
to min(width, depth)/2 − 0.01.  The 4-edge plain-rectangle degradation
occurs exactly when the clamped radius is nonpositive (in particular
whenever min(width, depth) ≤ 0.02 or the requested radius is ≤ 0). -/
theorem profile_oversize_clamps (x y z w d h r : ℚ)
    (hr : min w d / 2 ≤ r) (hmin : 1 / 50 < min w d) :
    buildRoundedRectPrism x y z w d h r
      = Solid.rrect x y z w d h (min w d / 2 - 1 / 100) ∧
    (profileEdges (buildRoundedRectPrism x y z w d h r)).length = 8 ∧
    (profileEdges (buildRoundedRectPrism x y z w d h r)).any Edge.isArc = true ∧
    (∀ x' y' z' w' d' h' r' : ℚ, clampRadius r' (min w' d' / 2) ≤ 0 →
      buildRoundedRectPrism x' y' z' w' d' h' r' = Solid.boxAt x' y' z' w' d' h' ∧
      (profileEdges (Solid.boxAt x' y' z' w' d' h')).length = 4 ∧
      (profileEdges (Solid.boxAt x' y' z' w' d' h')).any Edge.isArc = false) := by
  have hw : min w d ≤ w := min_le_left w d
  have hd : min w d ≤ d := min_le_right w d
  have hb : buildRoundedRectPrism x y z w d h r
      = Solid.rrect x y z w d h (min w d / 2 - 1 / 100) := by
    have hclamp : clampRadius r (min w d / 2) = min w d / 2 - 1 / 100 :=
      clampRadius_eq_limit (by linarith) (by linarith)
    simp only [buildRoundedRectPrism]
    rw [hclamp, if_neg (by linarith), if_neg]
    push_neg
    constructor <;> linarith
  refine ⟨hb, ?_, ?_, ?_⟩
  · rw [hb]; rfl
  · rw [hb]; rfl
  · intro x' y' z' w' d' h' r' hdeg
    refine ⟨?_, rfl, rfl⟩
    simp only [buildRoundedRectPrism]
    rw [if_pos hdeg]

/-- Witness for the amended C6 at width 4, depth 6, radius 7 (oversized)
and at width = depth = 0.01, radius 1 (degenerate). -/
theorem profile_oversize_clamps_witness :
    min 4 6 / 2 ≤ (7 : ℚ) ∧ (1 / 50 : ℚ) < min 4 6 ∧
    buildRoundedRectPrism 0 0 0 4 6 10 7
      = Solid.rrect 0 0 0 4 6 10 (min 4 6 / 2 - 1 / 100) ∧
    clampRadius 1 (min (1 / 100) (1 / 100) / 2) ≤ 0 ∧
    buildRoundedRectPrism 0 0 0 (1 / 100) (1 / 100) 10 1
      = Solid.boxAt 0 0 0 (1 / 100) (1 / 100) 10 :=
  ⟨by norm_num, by norm_num,
    (profile_oversize_clamps 0 0 0 4 6 10 7 (by norm_num) (by norm_num)).1,
    by norm_num [clampRadius],
    ((profile_oversize_clamps 0 0 0 4 6 10 7 (by norm_num) (by norm_num)).2.2.2
      0 0 0 (1 / 100) (1 / 100) 10 1 (by norm_num [clampRadius])).1⟩

/-- Folding `debugPush` over a batch of entries appends the batch: the
trace accumulates every logged event. -/
theorem foldl_debugPush (es : List DebugEntry) :
    ∀ t : List DebugEntry, es.foldl debugPush t = t ++ es := by
  induction es with
  | nil => intro t; simp
  | cons e es ih =>
    intro t
    simp only [List.foldl_cons, debugPush, ih]
    simp

/-- Sixty distinct diagnostic events, more than the claimed ~40 cap. -/
def demoTrace : List DebugEntry :=
  (List.range 60).map fun i => { label := "probe", payload := none, time := i }

/-- C9, counterexample.  Logging 60 diagnostic events leaves a trace of
all 60 entries — not at most ~40 — and the very first (oldest) entry is
still at the front: `debugLog` only pushes, nothing ever evicts, so the
claimed bounded retention fails. -/
theorem debug_trace_counterexample :
    (demoTrace.foldl debugPush []).length = 60 ∧
    ¬ (demoTrace.foldl debugPush []).length ≤ 40 ∧
    (demoTrace.foldl debugPush []).head?
      = some { label := "probe", payload := none, time := 0 } := by
  have h : demoTrace.foldl debugPush [] = demoTrace := by
    rw [foldl_debugPush]
    rfl
  refine ⟨?_, ?_, ?_⟩ <;> rw [h]
  · simp [demoTrace]
  · simp [demoTrace]
  · rfl

/-- C9, amended.  The in-memory diagnostic trace is unbounded: an append
never evicts anything (after any sequence of appends the trace holds
every entry, oldest first).  What is limited to the last (up to) 40
entries is the failure report, which extracts `slice(-40)` of the trace
when a build fails. -/
theorem debug_trace_unbounded (t es : List DebugEntry) :
    es.foldl debugPush t = t ++ es ∧
    (debugReport t).length = min t.length 40 ∧
    (debugReport t).IsSuffix t := by
  refine ⟨foldl_debugPush es t, ?_, ?_⟩
  · simp only [debugReport, List.length_drop]
    omega
  · exact List.drop_suffix _ _

/-- C10.  The outer corner radius `buildBox` hands to the profile
builder (requested radius insideRadius + wall, clamp limit
min(insideWidth + 2·wall, insideDepth + 2·wall)/2) clamps to exactly the
clamped inner radius plus wall, for every insideRadius ≥ 0, wall ≥ 0 and
min(insideWidth, insideDepth) ≥ 0.02 — so the corner wall thickness
survives clamping even when the requested radius exceeds the limit. -/
theorem outer_clamp_commutes_with_wall (insideWidth insideDepth insideRadius wall : ℚ)
    (h0 : 0 ≤ insideRadius) (h1 : 0 ≤ wall)
    (h2 : 1 / 50 ≤ min insideWidth insideDepth) :
    clampRadius (insideRadius + wall)
        (min (insideWidth + wall * 2) (insideDepth + wall * 2) / 2)
      = clampRadius insideRadius (min insideWidth insideDepth / 2) + wall := by
  have hmin : min (insideWidth + wall * 2) (insideDepth + wall * 2)
      = min insideWidth insideDepth + wall * 2 := min_add_add_right _ _ _
  unfold clampRadius
  rw [hmin]
  rw [max_eq_right (by linarith), max_eq_right (by linarith)]
  have hrw : (min insideWidth insideDepth + wall * 2) / 2 - 1 / 100
      = (min insideWidth insideDepth / 2 - 1 / 100) + wall := by ring
  rw [hrw, min_add_add_right]

/-- Witness for C10 at inside 10×10, wall 2, requested radius 20:
the outer clamp gives 6.99 = 4.99 + 2. -/
theorem outer_clamp_commutes_with_wall_witness :
    (0 : ℚ) ≤ 20 ∧ (0 : ℚ) ≤ 2 ∧ (1 / 50 : ℚ) ≤ min 10 10 ∧
    clampRadius (20 + 2) (min (10 + 2 * 2) (10 + 2 * 2) / 2)
      = clampRadius 20 (min 10 10 / 2) + 2 :=
  ⟨by norm_num, by norm_num, by norm_num,
    outer_clamp_commutes_with_wall 10 10 20 2 (by norm_num) (by norm_num) (by norm_num)⟩
